import Mathlib

/-!
Shallow embedding of the WaniWords word-classification and list-curation core
(`wanikani.py` and `waniwords_utility.py`), together with theorems checking the
specification's claims about it.

Python strings are modelled as `List Char` (a Python `str` is a sequence of
Unicode code points, and the code only ever iterates, slices, and compares
them).  Python lists become Lean lists; the `for ... break ... else` loops are
translated into structural recursions that mirror the control flow.  Fallible
lookups (`dict[key]`, which raises `KeyError`) become `Option`.
-/

namespace WaniWords

/-- A Python string: a sequence of Unicode code points. -/
abbrev Word := List Char

/-- `KANA_LIST` from `waniwords_utility.py`: the fixed enumeration of kana
(single-character strings), including the middle dot and prolonged-sound mark. -/
def KANA_STRINGS : List String := [
  "ぁ", "あ", "ぃ", "い", "ぅ", "う", "ゔ", "ぇ", "え", "ぉ", "お", "ゕ", "か", "が", "き", "ぎ", "く", "ぐ", "ゖ", "け", "げ",
  "こ", "ご", "さ", "ざ", "し", "じ", "す", "ず", "せ", "ぜ", "そ", "ぞ", "た", "だ", "ち", "ぢ", "っ", "つ", "づ", "て", "で",
  "と", "ど", "な", "に", "ぬ", "ね", "の", "は", "ば", "ぱ", "ひ", "び", "ぴ", "ふ", "ぶ", "ぷ", "へ", "べ", "ぺ", "ほ", "ぼ",
  "ぽ", "ま", "み", "む", "め", "も", "ゃ", "や", "ゅ", "ゆ", "ょ", "よ", "ら", "り", "る", "れ", "ろ", "ゎ", "わ", "ゐ", "ゑ",
  "を", "ん", "ァ", "ア", "ィ", "イ", "ゥ", "ウ", "ヴ", "ェ", "エ", "ォ", "オ", "ヵ", "カ", "ガ", "キ", "ギ", "ク", "グ", "ヶ",
  "ケ", "ゲ", "コ", "ゴ", "サ", "ザ", "シ", "ジ", "ス", "ズ", "セ", "ゼ", "ソ", "ゾ", "タ", "ダ", "チ", "ヂ", "ッ", "ツ", "ヅ",
  "テ", "デ", "ト", "ド", "ナ", "ニ", "ヌ", "ネ", "ノ", "ハ", "バ", "パ", "ヒ", "ビ", "ピ", "フ", "ブ", "プ", "ベ", "ペ", "ホ",
  "ボ", "ポ", "マ", "ミ", "ム", "メ", "モ", "ャ", "ヤ", "ュ", "ユ", "ョ", "ヨ", "ラ", "リ", "ル", "レ", "ロ", "ヮ", "ワ", "ヷ",
  "ヰ", "ヸ", "ヱ", "ヹ", "ヲ", "ヺ", "ン", "・", "ー"]

/-- `KANA_LIST` as a list of `Word` (each entry of the Python list is a
single-character string, and the filters compare whole strings against it). -/
def KANA_LIST : List Word := KANA_STRINGS.map String.toList

/-! ### `wanikani.py`: known-set derivation (`get_known_kanji_list`,
`get_known_vocabulary_list`)

The cache holds `user_kanji_assignments` (an id-to-srs dictionary: the loop
iterates over its keys, modelled as the list of assignment ids) and
`all_kanji_subjects` (an id-to-string dictionary, modelled as an association
list).  The Python loop indexes `all_kanji_subjects[lesson_id]`, which raises
`KeyError` when the id is absent, so the embedding returns `Option`. -/

/-- `WaniKaniHandler.get_known_kanji_list`: for each known-kanji assignment id,
look up the subject string; a missing id raises (here: `none`). -/
def get_known_kanji_list (user_kanji_assignments : List Nat)
    (all_kanji_subjects : List (Nat × Word)) : Option (List Word) :=
  match user_kanji_assignments with
  | [] => some []
  | lesson_id :: rest =>
    match all_kanji_subjects.lookup lesson_id with
    | none => none
    | some characters =>
      (get_known_kanji_list rest all_kanji_subjects).map (fun l => characters :: l)

/-- `WaniKaniHandler.get_known_vocabulary_list`: the vocabulary analogue. -/
def get_known_vocabulary_list (user_vocabulary_assignments : List Nat)
    (all_vocabulary_subjects : List (Nat × Word)) : Option (List Word) :=
  match user_vocabulary_assignments with
  | [] => some []
  | lesson_id :: rest =>
    match all_vocabulary_subjects.lookup lesson_id with
    | none => none
    | some characters =>
      (get_known_vocabulary_list rest all_vocabulary_subjects).map (fun l => characters :: l)

/-! ### `wanikani.py`: the three word-list filters

Each filter method reads a known set from the handler; the embedding takes that
set as an explicit argument. -/

/-- `WaniKaniHandler.filter_out_known_words`: keep `word` when
`bool(word not in known_vocabulary) ^ invert_filter`. -/
def filter_out_known_words (known_vocabulary : List Word) :
    List Word → Bool → List Word
  | [], _ => []
  | word :: rest, invert_filter =>
    if (!known_vocabulary.contains word).xor invert_filter then
      word :: filter_out_known_words known_vocabulary rest invert_filter
    else
      filter_out_known_words known_vocabulary rest invert_filter

/-- The inner `for character in word: if character not in known_characters:
break` loop (with its `else` clause): `true` iff every character of the word,
taken as a one-character string, is a member of `known_characters`. -/
def allCharsIn : Word → List Word → Bool
  | [], _ => true
  | character :: rest, known_characters =>
    if known_characters.contains [character] then allCharsIn rest known_characters
    else false

/-- The `invert_filter is False` branch of `filter_out_unknown_kanji` (and the
`else` branch of `filter_out_kana_words`): append exactly the words whose inner
scan completed without `break`. -/
def keepAll (known_characters : List Word) : List Word → List Word
  | [] => []
  | word :: rest =>
    if allCharsIn word known_characters then word :: keepAll known_characters rest
    else keepAll known_characters rest

/-- The `else` branch of `filter_out_unknown_kanji` (and the
`invert_filter is False` branch of `filter_out_kana_words`): the inner scan's
`else: continue` skips the append, so exactly the words whose scan hit `break`
are appended. -/
def keepNotAll (known_characters : List Word) : List Word → List Word
  | [] => []
  | word :: rest =>
    if allCharsIn word known_characters then keepNotAll known_characters rest
    else word :: keepNotAll known_characters rest

/-- `WaniKaniHandler.filter_out_unknown_kanji`: `known_characters` is
`KANA_LIST + known_kanji_list`; with `invert_filter` false it appends the words
all of whose characters are known, otherwise the words with some unknown
character. -/
def filter_out_unknown_kanji (known_kanji_list : List Word)
    (list_of_words : List Word) (invert_filter : Bool) : List Word :=
  let known_characters := KANA_LIST ++ known_kanji_list
  if invert_filter = false then keepAll known_characters list_of_words
  else keepNotAll known_characters list_of_words

/-- `WaniKaniHandler.filter_out_kana_words`: `known_characters` is `KANA_LIST`;
with `invert_filter` false it appends the words with some non-kana character,
otherwise the all-kana words. -/
def filter_out_kana_words (list_of_words : List Word) (invert_filter : Bool) :
    List Word :=
  if invert_filter = false then keepNotAll KANA_LIST list_of_words
  else keepAll KANA_LIST list_of_words

/-! ### `waniwords_utility.py`: the corpus reconciler
(`generate_frequency_list_file` up to the JPDB boundary)

Corpus lines are modelled after parsing: a `CorpusEntry` carries the stripped
lemma, reading, and type-tag fields. -/

/-- A parsed corpus row: lemma, reading and type-tag (spec section 3).
(`lemma` is a Lean keyword, hence the field name `wlemma`.) -/
structure CorpusEntry where
  wlemma : Word
  reading : Word
  wtype : Word
deriving DecidableEq, Repr

/-- `_NLT_BLACKLISTED_WORD_TYPES`. -/
def NLT_BLACKLISTED_WORD_TYPES : List Word :=
  ["助詞", "助動詞", "動詞-接尾", "記号"].map String.toList

/-- `_BCCWJ_BLACKLISTED_WORD_TYPES`. -/
def BCCWJ_BLACKLISTED_WORD_TYPES : List Word := ["接尾辞"].map String.toList

/-- `_BLACKLISTED_SYMBOLS`. -/
def BLACKLISTED_SYMBOLS : List Word :=
  ["*", "％", "ｍ", "ｇ", "8", "【"].map String.toList

/-- Python's substring test `needle in haystack` on strings: the needle is a
contiguous infix of the haystack. -/
def isSubstringOf (needle haystack : Word) : Bool := decide (needle <:+: haystack)

/-- The `for symbol in _BLACKLISTED_SYMBOLS: if symbol in word_lemma: break`
loop: `true` iff some blacklisted symbol occurs as a substring of the lemma. -/
def containsBlacklistedSymbol (word_lemma : Word) : Bool :=
  BLACKLISTED_SYMBOLS.any (fun symbol => isSubstringOf symbol word_lemma)

/-- The primary (NLT) scan of `generate_frequency_list_file`.  `word_count` is
incremented only when an entry survives all filters and is appended; a line
discarded by the type blacklist or for an empty lemma `continue`s past the cap
check, and a symbol-discarded line reaches the cap check with the counter
unchanged, so the loop breaks exactly when the counter has reached the cap. -/
def primaryScan : List CorpusEntry → Nat → Nat → List (Word × Word)
  | [], _, _ => []
  | entry :: rest, word_count, cap =>
    if NLT_BLACKLISTED_WORD_TYPES.contains entry.wtype || entry.wlemma.isEmpty then
      primaryScan rest word_count cap
    else if containsBlacklistedSymbol entry.wlemma then
      if word_count = cap then [] else primaryScan rest word_count cap
    else
      (entry.wlemma, entry.reading) ::
        (if word_count + 1 = cap then [] else primaryScan rest (word_count + 1) cap)

/-- The `for blacklisted_type in _BCCWJ_BLACKLISTED_WORD_TYPES` loop of the
secondary scan: `true` iff some blacklisted type occurs as a substring of the
type-tag. -/
def matchesBlacklistedType (word_type : Word) : Bool :=
  BCCWJ_BLACKLISTED_WORD_TYPES.any
    (fun blacklisted_type => isSubstringOf blacklisted_type word_type)

/-- The secondary (BCCWJ) scan of `generate_frequency_list_file`.
`word_count` is incremented for every line examined; a line whose type-tag
contains (as a substring) a blacklisted type contributes its (lemma, reading)
pair to the exclusion list. -/
def secondaryScan : List CorpusEntry → Nat → Nat → List (Word × Word)
  | [], _, _ => []
  | entry :: rest, word_count, cap =>
    (if matchesBlacklistedType entry.wtype then [(entry.wlemma, entry.reading)]
    else []) ++
    (if word_count + 1 = cap then [] else secondaryScan rest (word_count + 1) cap)

/-- The suffix-normalization step of `generate_frequency_list_file`:
`if word_lemma != "する" and word_lemma[-2:] == "する": word_lemma = word_lemma[:-2]`.
Python `s[-2:]` is the last two code points (the whole string when shorter) and
`s[:-2]` is everything but the last two. -/
def stripSuru (word_lemma : Word) : Word :=
  if word_lemma ≠ "する".toList ∧
      word_lemma.drop (word_lemma.length - 2) = "する".toList then
    word_lemma.take (word_lemma.length - 2)
  else word_lemma

/-- The third loop of `generate_frequency_list_file`: drop entries whose
(lemma, reading) pair matches a blacklisted entry, strip the する suffix, then
append to `list_of_words` unless already present. -/
def reconcileLoop (list_of_blacklisted_entries : List (Word × Word)) :
    List (Word × Word) → List Word → List Word
  | [], list_of_words => list_of_words
  | entry :: rest, list_of_words =>
    if list_of_blacklisted_entries.any
        (fun b => entry.1 == b.1 && entry.2 == b.2) then
      reconcileLoop list_of_blacklisted_entries rest list_of_words
    else
      let word_lemma := stripSuru entry.1
      if list_of_words.contains word_lemma then
        reconcileLoop list_of_blacklisted_entries rest list_of_words
      else
        reconcileLoop list_of_blacklisted_entries rest (list_of_words ++ [word_lemma])

/-- The whole reconciliation pipeline of `generate_frequency_list_file` up to
(but not including) the external JPDB resolution: primary scan with its 51000
survivor cap, secondary scan with its 70000 examined cap, then the
exclusion/strip/dedup loop. -/
def reconcile (primary_entries secondary_entries : List CorpusEntry) : List Word :=
  reconcileLoop (secondaryScan secondary_entries 0 70000)
    (primaryScan primary_entries 0 51000) []

/-- `generate_frequent_words`, with the stored frequency list as an argument:
return the whole (shorter) list when it has fewer than `num_of_words` entries,
otherwise the slice `[0:num_of_words]`. -/
def generate_frequent_words (words_list : List Word) (num_of_words : Nat) :
    List Word :=
  if words_list.length < num_of_words then words_list
  else words_list.take num_of_words

/-! ### Spec-side predicates (for comparison against the code) -/

/-- Spec section 4.1 `is_kana`: membership in the fixed kana enumeration. -/
def isKana (character : Char) : Bool := KANA_LIST.contains [character]

/-- Spec section 4.3, stated in the spec's words: a word is fully known when
every character in it is either kana or present in the known-kanji set. -/
def fullyKnown (known_kanji_set : List Word) (word : Word) : Bool :=
  word.all (fun character => isKana character || known_kanji_set.contains [character])

/-- An NLT entry survives the primary scan's filters: its type-tag is not
blacklisted, its lemma is non-empty, and its lemma contains no blacklisted
symbol (spec section 4.2, step 1). -/
def primarySurvives (entry : CorpusEntry) : Bool :=
  !(NLT_BLACKLISTED_WORD_TYPES.contains entry.wtype || entry.wlemma.isEmpty) &&
    !(containsBlacklistedSymbol entry.wlemma)

/-! ### Helper lemmas: the loop translations are stable filters -/

lemma filter_out_known_words_eq_filter (known_vocabulary W : List Word)
    (invert_filter : Bool) :
    filter_out_known_words known_vocabulary W invert_filter =
      W.filter (fun w => (!known_vocabulary.contains w).xor invert_filter) := by
  induction W with
  | nil => rfl
  | cons w rest ih =>
    rw [filter_out_known_words, List.filter_cons]
    by_cases h : ((!known_vocabulary.contains w).xor invert_filter) = true
    · rw [if_pos h, if_pos h, ih]
    · rw [if_neg h, if_neg h, ih]

lemma keepAll_eq_filter (known_characters W : List Word) :
    keepAll known_characters W = W.filter (fun w => allCharsIn w known_characters) := by
  induction W with
  | nil => rfl
  | cons w rest ih =>
    rw [keepAll, List.filter_cons]
    by_cases h : allCharsIn w known_characters = true
    · rw [if_pos h, if_pos h, ih]
    · rw [if_neg h, if_neg h, ih]

lemma keepNotAll_eq_filter (known_characters W : List Word) :
    keepNotAll known_characters W =
      W.filter (fun w => !(allCharsIn w known_characters)) := by
  induction W with
  | nil => rfl
  | cons w rest ih =>
    rw [keepNotAll, List.filter_cons]
    by_cases h : allCharsIn w known_characters = true
    · rw [if_pos h, if_neg (by simp [h]), ih]
    · rw [if_neg h, if_pos (by simp [h]), ih]

lemma filter_disjoint_of_compl {p q : Word → Bool} (h : ∀ a, q a = !(p a))
    (l : List Word) : List.Disjoint (l.filter p) (l.filter q) := by
  intro a ha hb
  rw [List.mem_filter] at ha hb
  rw [h a, ha.2] at hb
  exact absurd hb.2 (by simp)

lemma filter_union_of_compl {p q : Word → Bool} (h : ∀ a, q a = !(p a))
    (l : List Word) :
    (l.filter p).toFinset ∪ (l.filter q).toFinset = l.toFinset := by
  ext a
  simp only [Finset.mem_union, List.mem_toFinset, List.mem_filter, h a]
  cases hp : p a <;> simp [hp]

lemma allCharsIn_append_eq_fullyKnown (known_kanji_set : List Word) (w : Word) :
    allCharsIn w (KANA_LIST ++ known_kanji_set) = fullyKnown known_kanji_set w := by
  induction w with
  | nil => rfl
  | cons c cs ih =>
    rw [allCharsIn, fullyKnown, List.all_cons]
    by_cases h : (KANA_LIST ++ known_kanji_set).contains [c] = true
    · rw [if_pos h, ih, fullyKnown]
      have h2 : (isKana c || known_kanji_set.contains [c]) = true := by
        simp only [List.elem_eq_mem, List.mem_append, decide_eq_true_eq] at h
        rcases h with h | h
        · simp [isKana, h]
        · simp [h]
      rw [h2, Bool.true_and]
    · rw [if_neg h]
      have h2 : (isKana c || known_kanji_set.contains [c]) = false := by
        simp only [List.elem_eq_mem, List.mem_append, decide_eq_true_eq] at h
        push_neg at h
        simp [isKana, h.1, h.2]
      rw [h2, Bool.false_and]

/-! ### Theorems for the claims -/

/-- C4: for each of the three filters, the invert=false result and the
invert=true result are disjoint, and together they cover the input word list
as a set: the invert flag is a true complement of the base predicate. -/
theorem c4_invert_complement (W S : List Word) :
    (List.Disjoint (filter_out_known_words S W false) (filter_out_known_words S W true) ∧
      (filter_out_known_words S W false).toFinset ∪
        (filter_out_known_words S W true).toFinset = W.toFinset) ∧
    (List.Disjoint (filter_out_unknown_kanji S W false) (filter_out_unknown_kanji S W true) ∧
      (filter_out_unknown_kanji S W false).toFinset ∪
        (filter_out_unknown_kanji S W true).toFinset = W.toFinset) ∧
    (List.Disjoint (filter_out_kana_words W false) (filter_out_kana_words W true) ∧
      (filter_out_kana_words W false).toFinset ∪
        (filter_out_kana_words W true).toFinset = W.toFinset) := by
  have hxor : ∀ a : Word, (!S.contains a).xor true = !((!S.contains a).xor false) := by
    intro a
    simp
  have h1 : filter_out_unknown_kanji S W false = keepAll (KANA_LIST ++ S) W := rfl
  have h2 : filter_out_unknown_kanji S W true = keepNotAll (KANA_LIST ++ S) W := rfl
  have h3 : filter_out_kana_words W false = keepNotAll KANA_LIST W := rfl
  have h4 : filter_out_kana_words W true = keepAll KANA_LIST W := rfl
  refine ⟨⟨?_, ?_⟩, ⟨?_, ?_⟩, ⟨?_, ?_⟩⟩
  · rw [filter_out_known_words_eq_filter, filter_out_known_words_eq_filter]
    exact filter_disjoint_of_compl hxor W
  · rw [filter_out_known_words_eq_filter, filter_out_known_words_eq_filter]
    exact filter_union_of_compl hxor W
  · rw [h1, h2, keepAll_eq_filter, keepNotAll_eq_filter]
    exact filter_disjoint_of_compl (fun a => rfl) W
  · rw [h1, h2, keepAll_eq_filter, keepNotAll_eq_filter]
    exact filter_union_of_compl (fun a => rfl) W
  · rw [h3, h4, keepNotAll_eq_filter, keepAll_eq_filter]
    exact filter_disjoint_of_compl (fun a => by simp) W
  · rw [h3, h4, keepNotAll_eq_filter, keepAll_eq_filter]
    exact filter_union_of_compl (fun a => by simp) W

/-- C7: each of the three filters returns a sublist (subsequence preserving
relative order) of its input word list, for every invert flag. -/
theorem c7_order_preservation (W S : List Word) (invert_filter : Bool) :
    List.Sublist (filter_out_known_words S W invert_filter) W ∧
    List.Sublist (filter_out_unknown_kanji S W invert_filter) W ∧
    List.Sublist (filter_out_kana_words W invert_filter) W := by
  refine ⟨?_, ?_, ?_⟩
  · rw [filter_out_known_words_eq_filter]
    exact List.filter_sublist W
  · cases invert_filter
    · rw [show filter_out_unknown_kanji S W false = keepAll (KANA_LIST ++ S) W from rfl,
        keepAll_eq_filter]
      exact List.filter_sublist W
    · rw [show filter_out_unknown_kanji S W true = keepNotAll (KANA_LIST ++ S) W from rfl,
        keepNotAll_eq_filter]
      exact List.filter_sublist W
  · cases invert_filter
    · rw [show filter_out_kana_words W false = keepNotAll KANA_LIST W from rfl,
        keepNotAll_eq_filter]
      exact List.filter_sublist W
    · rw [show filter_out_kana_words W true = keepAll KANA_LIST W from rfl,
        keepAll_eq_filter]
      exact List.filter_sublist W

/-- C1 counterexample: with known_kanji_set = ["食"] and
words = ["食べる", "食べ物", "飲む"], the invert=false result of the
known-character filter is ["食べる"] (the fully-known word), not
["食べ物", "飲む"] as the claim states: the claim has the polarity of the
invert flag backwards. -/
theorem c1_counterexample :
    filter_out_unknown_kanji ["食".toList]
        ["食べる".toList, "食べ物".toList, "飲む".toList] false = ["食べる".toList] ∧
    filter_out_unknown_kanji ["食".toList]
        ["食べる".toList, "食べ物".toList, "飲む".toList] false ≠
      ["食べ物".toList, "飲む".toList] := by
  constructor
  · decide
  · decide

/-- C1 amended: the known-character filter with invert=false keeps exactly the
fully-known words (every character kana or in the known-kanji set), and with
invert=true keeps exactly the words that are NOT fully known; in particular,
with known_kanji_set = ["食"] and words = ["食べる", "食べ物", "飲む"], the
invert=false result is ["食べる"] and the invert=true result is
["食べ物", "飲む"]. -/
theorem c1_amended (known_kanji_set words : List Word) :
    filter_out_unknown_kanji known_kanji_set words false =
      words.filter (fun w => fullyKnown known_kanji_set w) ∧
    filter_out_unknown_kanji known_kanji_set words true =
      words.filter (fun w => !(fullyKnown known_kanji_set w)) ∧
    filter_out_unknown_kanji ["食".toList]
        ["食べる".toList, "食べ物".toList, "飲む".toList] false = ["食べる".toList] ∧
    filter_out_unknown_kanji ["食".toList]
        ["食べる".toList, "食べ物".toList, "飲む".toList] true =
      ["食べ物".toList, "飲む".toList] := by
  refine ⟨?_, ?_, by decide, by decide⟩
  · rw [show filter_out_unknown_kanji known_kanji_set words false =
        keepAll (KANA_LIST ++ known_kanji_set) words from rfl, keepAll_eq_filter]
    exact List.filter_congr
      (fun w _ => allCharsIn_append_eq_fullyKnown known_kanji_set w)
  · rw [show filter_out_unknown_kanji known_kanji_set words true =
        keepNotAll (KANA_LIST ++ known_kanji_set) words from rfl, keepNotAll_eq_filter]
    exact List.filter_congr
      (fun w _ => by rw [allCharsIn_append_eq_fullyKnown known_kanji_set w])

/-- C2 counterexample: the lemma "食べする" does end in the exact suffix
"する" and is not "する" itself, so the reconciler strips it to "食べ" —
contrary to the claim that it is not stripped. -/
theorem c2_counterexample :
    stripSuru ("食べする".toList) = "食べ".toList ∧
    stripSuru ("食べする".toList) ≠ "食べする".toList := by
  constructor
  · decide
  · decide

/-- C2 amended: the suffix-normalization step strips a trailing exact "する"
from every lemma other than "する" itself (so "食べする" is stripped to
"食べ", "勉強する" to "勉強"), leaves "する" unchanged, and changes a lemma
only when it is distinct from "する" and ends in the exact suffix "する". -/
theorem c2_amended (word_lemma : Word) :
    stripSuru ("勉強する".toList) = "勉強".toList ∧
    stripSuru ("する".toList) = "する".toList ∧
    stripSuru ("食べする".toList) = "食べ".toList ∧
    (word_lemma ≠ "する".toList →
      word_lemma.drop (word_lemma.length - 2) = "する".toList →
      stripSuru word_lemma = word_lemma.take (word_lemma.length - 2)) ∧
    (word_lemma = "する".toList ∨
        word_lemma.drop (word_lemma.length - 2) ≠ "する".toList →
      stripSuru word_lemma = word_lemma) := by
  refine ⟨by decide, by decide, by decide, ?_, ?_⟩
  · intro h1 h2
    rw [stripSuru, if_pos ⟨h1, h2⟩]
  · intro h
    rcases h with h | h
    · rw [stripSuru, if_neg (fun hc => hc.1 h)]
    · rw [stripSuru, if_neg (fun hc => h hc.2)]

/-- Witness for the amended C2: at the concrete lemmata "研究する" (stripped)
and "犬" (unchanged), instantiating both general parts. -/
theorem c2_amended_witness :
    stripSuru ("研究する".toList) =
      ("研究する".toList).take (("研究する".toList).length - 2) ∧
    stripSuru ("犬".toList) = "犬".toList := by
  constructor
  · exact (c2_amended ("研究する".toList)).2.2.2.1 (by decide) (by decide)
  · exact (c2_amended ("犬".toList)).2.2.2.2 (Or.inr (by decide))

/-- C10: the empty word vacuously passes every per-character scan: the
known-character filter classifies "" as composed entirely of known characters
(kept with invert=false, dropped with invert=true), and the kana-only filter
classifies "" as kana-only (dropped with invert=false, kept with invert=true),
for every known-kanji set. -/
theorem c10_empty_word (known_kanji_list : List Word) :
    allCharsIn [] (KANA_LIST ++ known_kanji_list) = true ∧
    allCharsIn [] KANA_LIST = true ∧
    filter_out_unknown_kanji known_kanji_list [[]] false = [[]] ∧
    filter_out_unknown_kanji known_kanji_list [[]] true = [] ∧
    filter_out_kana_words [[]] false = [] ∧
    filter_out_kana_words [[]] true = [[]] := by
  exact ⟨rfl, rfl, rfl, rfl, by decide, by decide⟩

lemma any_beq_pair_iff (bl : List (Word × Word)) (entry : Word × Word) :
    bl.any (fun b => entry.1 == b.1 && entry.2 == b.2) = true ↔ entry ∈ bl := by
  simp only [List.any_eq_true, Bool.and_eq_true, beq_iff_eq]
  constructor
  · rintro ⟨b, hb, h1, h2⟩
    have : entry = b := Prod.ext h1 h2
    exact this ▸ hb
  · intro h
    exact ⟨entry, h, rfl, rfl⟩

/-- C3: in the reconciler's third loop, exclusion matching compares the
pre-strip (lemma, reading) pair against the blacklist (a blacklisted entry is
dropped before any suffix stripping happens), while deduplication compares the
post-strip lemma against the already-retained output (an entry whose stripped
lemma is already retained is dropped; otherwise the stripped lemma is appended,
so the second occurrence loses). -/
theorem c3_exclusion_prestrip_dedup_poststrip
    (list_of_blacklisted_entries : List (Word × Word)) (entry : Word × Word)
    (rest : List (Word × Word)) (list_of_words : List Word) :
    (entry ∈ list_of_blacklisted_entries →
      reconcileLoop list_of_blacklisted_entries (entry :: rest) list_of_words =
        reconcileLoop list_of_blacklisted_entries rest list_of_words) ∧
    (entry ∉ list_of_blacklisted_entries →
      stripSuru entry.1 ∈ list_of_words →
      reconcileLoop list_of_blacklisted_entries (entry :: rest) list_of_words =
        reconcileLoop list_of_blacklisted_entries rest list_of_words) ∧
    (entry ∉ list_of_blacklisted_entries →
      stripSuru entry.1 ∉ list_of_words →
      reconcileLoop list_of_blacklisted_entries (entry :: rest) list_of_words =
        reconcileLoop list_of_blacklisted_entries rest
          (list_of_words ++ [stripSuru entry.1])) := by
  refine ⟨?_, ?_, ?_⟩
  · intro h
    rw [reconcileLoop, if_pos ((any_beq_pair_iff _ _).mpr h)]
  · intro h hmem
    rw [reconcileLoop,
      if_neg (fun hc => h ((any_beq_pair_iff _ _).mp hc)),
      if_pos (by simpa using hmem)]
  · intro h hmem
    rw [reconcileLoop,
      if_neg (fun hc => h ((any_beq_pair_iff _ _).mp hc)),
      if_neg (by simpa using hmem)]

/-- Witness for C3: a blacklisted entry is dropped, a duplicate stripped lemma
is dropped, and a fresh stripped lemma is appended, at concrete inputs. -/
theorem c3_witness :
    reconcileLoop [("犬".toList, "いぬ".toList)]
        [("犬".toList, "いぬ".toList)] [] = [] ∧
    reconcileLoop [] [("勉強する".toList, "べんきょうする".toList)]
        ["勉強".toList] = ["勉強".toList] ∧
    reconcileLoop [] [("勉強する".toList, "べんきょうする".toList)] [] =
      [] ++ [stripSuru ("勉強する".toList)] := by
  refine ⟨?_, ?_, ?_⟩
  · exact (c3_exclusion_prestrip_dedup_poststrip
      [("犬".toList, "いぬ".toList)] ("犬".toList, "いぬ".toList) [] []).1
      (by decide)
  · exact (c3_exclusion_prestrip_dedup_poststrip
      [] ("勉強する".toList, "べんきょうする".toList) [] ["勉強".toList]).2.1
      (by decide) (by decide)
  · exact (c3_exclusion_prestrip_dedup_poststrip
      [] ("勉強する".toList, "べんきょうする".toList) [] []).2.2
      (by decide) (by decide)

lemma primaryScan_eq_take (entries : List CorpusEntry) :
    ∀ word_count cap : Nat, word_count < cap →
    primaryScan entries word_count cap =
      ((entries.filter primarySurvives).map (fun e => (e.wlemma, e.reading))).take
        (cap - word_count) := by
  induction entries with
  | nil =>
    intro wc cap h
    simp [primaryScan]
  | cons e rest ih =>
    intro wc cap h
    by_cases h1 : (NLT_BLACKLISTED_WORD_TYPES.contains e.wtype || e.wlemma.isEmpty) = true
    · have hs : ¬ primarySurvives e = true := by
        have h1c := h1
        simp only [Bool.or_eq_true] at h1c
        rcases h1c with hc | hc
        · have hm : e.wtype ∈ NLT_BLACKLISTED_WORD_TYPES := by simpa using hc
          simp [primarySurvives, hm]
        · have hm : e.wlemma = [] := by simpa using hc
          simp [primarySurvives, hm]
      rw [primaryScan, if_pos h1, List.filter_cons_of_neg hs, ih wc cap h]
    · by_cases h2 : containsBlacklistedSymbol e.wlemma = true
      · have hs : ¬ primarySurvives e = true := by simp [primarySurvives, h2]
        have hne : ¬ wc = cap := by omega
        rw [primaryScan, if_neg h1, if_pos h2, if_neg hne,
          List.filter_cons_of_neg hs, ih wc cap h]
      · have hs : primarySurvives e = true := by
          simp only [primarySurvives, Bool.and_eq_true, Bool.not_eq_true']
          constructor
          · simpa using h1
          · simpa using h2
        have hsub : cap - wc = (cap - (wc + 1)) + 1 := by omega
        have htail : (if wc + 1 = cap then []
              else primaryScan rest (wc + 1) cap) =
            ((rest.filter primarySurvives).map
              (fun e => (e.wlemma, e.reading))).take (cap - (wc + 1)) := by
          by_cases h3 : wc + 1 = cap
          · rw [if_pos h3, ← h3, Nat.sub_self, List.take_zero]
          · rw [if_neg h3, ih (wc + 1) cap (by omega)]
        rw [primaryScan, if_neg h1, if_neg h2, List.filter_cons_of_pos hs,
          List.map_cons, hsub, List.take_succ_cons, htail]

lemma secondaryScan_eq_take (entries : List CorpusEntry) :
    ∀ word_count cap : Nat, word_count < cap →
    secondaryScan entries word_count cap =
      ((entries.take (cap - word_count)).filter
          (fun e => matchesBlacklistedType e.wtype)).map
        (fun e => (e.wlemma, e.reading)) := by
  induction entries with
  | nil =>
    intro wc cap h
    simp [secondaryScan]
  | cons e rest ih =>
    intro wc cap h
    have hsub : cap - wc = (cap - (wc + 1)) + 1 := by omega
    have htail : (if wc + 1 = cap then []
          else secondaryScan rest (wc + 1) cap) =
        ((rest.take (cap - (wc + 1))).filter
            (fun e => matchesBlacklistedType e.wtype)).map
          (fun e => (e.wlemma, e.reading)) := by
      by_cases h3 : wc + 1 = cap
      · rw [if_pos h3, ← h3, Nat.sub_self, List.take_zero]
        rfl
      · rw [if_neg h3, ih (wc + 1) cap (by omega)]
    rw [secondaryScan, hsub, List.take_succ_cons]
    by_cases h1 : matchesBlacklistedType e.wtype = true
    · have hfil : List.filter (fun x => matchesBlacklistedType x.wtype)
          (e :: List.take (cap - (wc + 1)) rest) =
        e :: List.filter (fun x => matchesBlacklistedType x.wtype)
          (List.take (cap - (wc + 1)) rest) := by
        rw [List.filter_cons]
        simp [h1]
      rw [if_pos h1, hfil, List.map_cons, List.singleton_append, htail]
    · have hfil : List.filter (fun x => matchesBlacklistedType x.wtype)
          (e :: List.take (cap - (wc + 1)) rest) =
        List.filter (fun x => matchesBlacklistedType x.wtype)
          (List.take (cap - (wc + 1)) rest) := by
        rw [List.filter_cons]
        simp [h1]
      rw [if_neg h1, hfil, List.nil_append, htail]

/-- C5: the primary (NLT) scan returns the first 51000 entries that SURVIVE
the type-blacklist, empty-lemma and symbol filters (discarded entries do not
count toward the cap: the result is `take 51000` of the filtered stream),
while the secondary (BCCWJ) scan examines at most 70000 entries in total and
keeps the matching ones among them (the result is the filter of
`take 70000`). -/
theorem c5_caps (primary_entries secondary_entries : List CorpusEntry) :
    primaryScan primary_entries 0 51000 =
      ((primary_entries.filter primarySurvives).map
        (fun e => (e.wlemma, e.reading))).take 51000 ∧
    secondaryScan secondary_entries 0 70000 =
      ((secondary_entries.take 70000).filter
          (fun e => matchesBlacklistedType e.wtype)).map
        (fun e => (e.wlemma, e.reading)) := by
  constructor
  · simpa using primaryScan_eq_take primary_entries 0 51000 (by omega)
  · simpa using secondaryScan_eq_take secondary_entries 0 70000 (by omega)

lemma reconcileLoop_nodup (list_of_blacklisted_entries : List (Word × Word))
    (entries : List (Word × Word)) :
    ∀ list_of_words : List Word, list_of_words.Nodup →
    (reconcileLoop list_of_blacklisted_entries entries list_of_words).Nodup := by
  induction entries with
  | nil =>
    intro acc h
    exact h
  | cons e rest ih =>
    intro acc h
    rw [reconcileLoop]
    by_cases h1 : list_of_blacklisted_entries.any
        (fun b => e.1 == b.1 && e.2 == b.2) = true
    · rw [if_pos h1]
      exact ih acc h
    · rw [if_neg h1]
      by_cases h2 : acc.contains (stripSuru e.1) = true
      · rw [if_pos h2]
        exact ih acc h
      · rw [if_neg h2]
        apply ih
        rw [List.nodup_append]
        refine ⟨h, List.nodup_singleton _, ?_⟩
        intro a ha hb
        rw [List.mem_singleton] at hb
        subst hb
        exact h2 (by simpa using ha)

/-- C6: for every pair of primary and secondary corpus entry lists, the
candidate list produced by the reconciler contains no duplicate words. -/
theorem c6_no_duplicates (primary_entries secondary_entries : List CorpusEntry) :
    (reconcile primary_entries secondary_entries).Nodup :=
  reconcileLoop_nodup _ _ [] List.nodup_nil

/-- C8: the take operation on a stored frequency list returns the first `n`
entries when the list has at least `n` entries, and returns the whole (shorter)
list, rather than failing, when it has fewer. -/
theorem c8_take_best_effort (words_list : List Word) (num_of_words : Nat) :
    (num_of_words ≤ words_list.length →
      generate_frequent_words words_list num_of_words =
        words_list.take num_of_words) ∧
    (words_list.length < num_of_words →
      generate_frequent_words words_list num_of_words = words_list) := by
  constructor
  · intro h
    rw [generate_frequent_words, if_neg (by omega)]
  · intro h
    rw [generate_frequent_words, if_pos h]

/-- Witness for C8: a long-enough list is cut to the first entry, and a
too-short list is returned whole. -/
theorem c8_take_best_effort_witness :
    generate_frequent_words ["食".toList, "犬".toList] 1 =
      (["食".toList, "犬".toList]).take 1 ∧
    generate_frequent_words ["食".toList] 5 = ["食".toList] := by
  constructor
  · exact (c8_take_best_effort ["食".toList, "犬".toList] 1).1 (by decide)
  · exact (c8_take_best_effort ["食".toList] 5).2 (by decide)

lemma get_known_kanji_list_eq_map (ids : List Nat) (subjects : List (Nat × Word))
    (h : ∀ i ∈ ids, (subjects.lookup i).isSome) :
    get_known_kanji_list ids subjects =
      some (ids.map (fun i => (subjects.lookup i).getD [])) := by
  induction ids with
  | nil => rfl
  | cons a rest ih =>
    obtain ⟨w, hw⟩ := Option.isSome_iff_exists.mp (h a (List.mem_cons_self a rest))
    rw [get_known_kanji_list, hw,
      ih (fun i hi => h i (List.mem_cons_of_mem a hi))]
    simp [hw]

lemma get_known_kanji_list_eq_none (ids : List Nat) (subjects : List (Nat × Word))
    (h : ∃ i ∈ ids, subjects.lookup i = none) :
    get_known_kanji_list ids subjects = none := by
  induction ids with
  | nil => simp at h
  | cons a rest ih =>
    obtain ⟨i, hi, hnone⟩ := h
    rcases List.mem_cons.mp hi with rfl | hmem
    · rw [get_known_kanji_list, hnone]
    · cases hl : subjects.lookup a with
      | none => rw [get_known_kanji_list, hl]
      | some w =>
        rw [get_known_kanji_list, hl, ih ⟨i, hmem, hnone⟩]
        rfl

lemma get_known_vocabulary_list_eq_map (ids : List Nat)
    (subjects : List (Nat × Word)) (h : ∀ i ∈ ids, (subjects.lookup i).isSome) :
    get_known_vocabulary_list ids subjects =
      some (ids.map (fun i => (subjects.lookup i).getD [])) := by
  induction ids with
  | nil => rfl
  | cons a rest ih =>
    obtain ⟨w, hw⟩ := Option.isSome_iff_exists.mp (h a (List.mem_cons_self a rest))
    rw [get_known_vocabulary_list, hw,
      ih (fun i hi => h i (List.mem_cons_of_mem a hi))]
    simp [hw]

lemma get_known_vocabulary_list_eq_none (ids : List Nat)
    (subjects : List (Nat × Word)) (h : ∃ i ∈ ids, subjects.lookup i = none) :
    get_known_vocabulary_list ids subjects = none := by
  induction ids with
  | nil => simp at h
  | cons a rest ih =>
    obtain ⟨i, hi, hnone⟩ := h
    rcases List.mem_cons.mp hi with rfl | hmem
    · rw [get_known_vocabulary_list, hnone]
    · cases hl : subjects.lookup a with
      | none => rw [get_known_vocabulary_list, hl]
      | some w =>
        rw [get_known_vocabulary_list, hl, ih ⟨i, hmem, hnone⟩]
        rfl

/-- C9: when every known-assignment id is present in the corresponding subject
catalog, the known-set derivation returns exactly the projection of each
assignment id to its subject string; when some id is absent, it fails with a
distinguishable error (`none`, the `KeyError`) rather than silently returning
an empty or partial list — for both the kanji and the vocabulary variants. -/
theorem c9_known_set_projection (kanji_ids vocabulary_ids : List Nat)
    (kanji_subjects vocabulary_subjects : List (Nat × Word)) :
    ((∀ i ∈ kanji_ids, (kanji_subjects.lookup i).isSome) →
      get_known_kanji_list kanji_ids kanji_subjects =
        some (kanji_ids.map (fun i => (kanji_subjects.lookup i).getD []))) ∧
    ((∃ i ∈ kanji_ids, kanji_subjects.lookup i = none) →
      get_known_kanji_list kanji_ids kanji_subjects = none) ∧
    ((∀ i ∈ vocabulary_ids, (vocabulary_subjects.lookup i).isSome) →
      get_known_vocabulary_list vocabulary_ids vocabulary_subjects =
        some (vocabulary_ids.map
          (fun i => (vocabulary_subjects.lookup i).getD []))) ∧
    ((∃ i ∈ vocabulary_ids, vocabulary_subjects.lookup i = none) →
      get_known_vocabulary_list vocabulary_ids vocabulary_subjects = none) :=
  ⟨get_known_kanji_list_eq_map kanji_ids kanji_subjects,
    get_known_kanji_list_eq_none kanji_ids kanji_subjects,
    get_known_vocabulary_list_eq_map vocabulary_ids vocabulary_subjects,
    get_known_vocabulary_list_eq_none vocabulary_ids vocabulary_subjects⟩

/-- Witness for C9: a consistent snapshot projects to the subject strings, and
a missing id yields the failure value, at concrete inputs. -/
theorem c9_known_set_projection_witness :
    get_known_kanji_list [1, 2] [(1, "食".toList), (2, "犬".toList)] =
      some ["食".toList, "犬".toList] ∧
    get_known_kanji_list [3] [(1, "食".toList)] = none ∧
    get_known_vocabulary_list [5] [(5, "食べる".toList)] =
      some ["食べる".toList] ∧
    get_known_vocabulary_list [7] [(5, "食べる".toList)] = none := by
  refine ⟨?_, ?_, ?_, ?_⟩
  · exact ((c9_known_set_projection [1, 2] [5] [(1, "食".toList), (2, "犬".toList)]
      [(5, "食べる".toList)]).1 (by decide)).trans (by decide)
  · exact (c9_known_set_projection [3] [5] [(1, "食".toList)]
      [(5, "食べる".toList)]).2.1 (by decide)
  · exact ((c9_known_set_projection [1] [5] [(1, "食".toList)]
      [(5, "食べる".toList)]).2.2.1 (by decide)).trans (by decide)
  · exact (c9_known_set_projection [1] [7] [(1, "食".toList)]
      [(5, "食べる".toList)]).2.2.2 (by decide)

end WaniWords

